import Mathlib

/-!
Shallow embedding of the damage-tracking domain services
(inspection, damage, work-order, vendor) of the
Adverant-Nexus-Plugin-DamageTracking repository, together with proofs
about the behaviours its specification claims.

Conventions of the embedding:
* JavaScript numbers (costs, ratings, epoch-millisecond timestamps) are
  modelled as `ℚ`; integer counters and integer-rounded averages as `ℤ`.
* `Math.round` / `Math.ceil` are `JsRound` / `JsCeil` below.
* Nullable database columns are `Option` fields.  A Prisma `update` skips
  a field whose value is `undefined`; this is `patchField`.
* Each `prisma.*.create` / `update` becomes a pure function from the old
  record(s) to the new one(s); `throw` before any write becomes an
  `Except.error` result paired with the unchanged state.
* Fire-and-forget side channels (event publishing, notifications, the
  Nexus "pattern" store) have no effect on the records and are omitted.
-/

namespace DamageTracking

/-- JavaScript `Math.round`: round half toward positive infinity. -/
def JsRound (q : ℚ) : ℤ := ⌊q + 1 / 2⌋

/-- JavaScript `Math.ceil`. -/
def JsCeil (q : ℚ) : ℤ := ⌈q⌉

/-- Prisma update semantics: an `undefined` value leaves the column as it
was, a present value overwrites it. -/
def patchField {α : Type} : Option α → Option α → Option α
  | some v, _ => some v
  | none, old => old

/- ## Enumerations (from the Prisma enums used by the services) -/

inductive DamageType
  | SCRATCH | STAIN | CRACK | BURN | WATER_DAMAGE | HOLE
  | BROKEN_ITEM | DENT | MOLD | PEST | OTHER
  deriving DecidableEq, Repr

inductive Severity
  | MINOR | MODERATE | MAJOR | CRITICAL
  deriving DecidableEq, Repr

inductive DamageStatus
  | REPORTED | UNDER_REVIEW | APPROVED | DISPUTED
  | REPAIR_SCHEDULED | REPAIRED | VERIFIED
  deriving DecidableEq, Repr

inductive WorkOrderStatus
  | PENDING | ASSIGNED | SCHEDULED | IN_PROGRESS
  | COMPLETED | VERIFIED | CANCELLED
  deriving DecidableEq, Repr

inductive InspectionStatus
  | SCHEDULED | IN_PROGRESS | COMPLETED
  deriving DecidableEq, Repr

inductive Condition
  | EXCELLENT | GOOD | FAIR | POOR | DAMAGED
  deriving DecidableEq, Repr

/- ## Damage service: AI label mapping (damage.service.ts) -/

/-- JavaScript `String.prototype.toLowerCase` on the ASCII labels the
mapping tables use (character-wise lowering). -/
def lowerString (s : String) : String := String.mk (s.data.map Char.toLower)

/-- Embeds `mapAIDamageType`: lowercased AI label to the `DamageType` enum,
falling back to `OTHER`. -/
def mapAIDamageType (aiType : String) : DamageType :=
  match lowerString aiType with
  | "stain" => .STAIN
  | "hole" => .HOLE
  | "crack" => .CRACK
  | "burn" => .BURN
  | "water_damage" => .WATER_DAMAGE
  | "water" => .WATER_DAMAGE
  | "broken" => .BROKEN_ITEM
  | "scratch" => .SCRATCH
  | "dent" => .DENT
  | "mold" => .MOLD
  | "pest" => .PEST
  | _ => .OTHER

/-- Embeds `mapAISeverity`: lowercased AI label to the `Severity` enum, falling
back to `MODERATE`. -/
def mapAISeverity (aiSeverity : String) : Severity :=
  match lowerString aiSeverity with
  | "minor" => .MINOR
  | "moderate" => .MODERATE
  | "major" => .MAJOR
  | "critical" => .CRITICAL
  | "severe" => .CRITICAL
  | _ => .MODERATE

/- ## Records -/

/-- Result of `CVIntegrationService.detectDamage` (types/index.ts,
`AIDetectionResult`).  The bounding box and metadata blobs are carried
opaquely and are irrelevant to the claims, so they are dropped here. -/
structure AIDetectionResult where
  detected : Bool
  confidence : ℚ
  damageType : Option String := none
  severity : Option String := none
  deriving DecidableEq, Repr

/-- A `Damage` row, restricted to the columns the services read or
write. -/
structure Damage where
  inspectionId : String
  propertyId : String
  room : String
  location : String
  damageType : DamageType
  severity : Severity
  status : DamageStatus
  aiDetected : Bool := false
  aiConfidence : Option ℚ := none
  aiDamageType : Option String := none
  aiSeverity : Option String := none
  estimatedCostAi : Option ℚ := none
  estimatedCostManual : Option ℚ := none
  actualCost : Option ℚ := none
  beforePhotoUrl : Option String := none
  afterPhotoUrl : Option String := none
  photos : List String := []
  deriving DecidableEq, Repr

/-- The identifying parameters of `detectDamageFromImage`. -/
structure DetectParams where
  inspectionId : String
  propertyId : String
  room : String
  location : String
  deriving DecidableEq, Repr

/-- Embeds `DamageService.detectDamageFromImage` (damage.service.ts).

The image upload has already produced `uploadUrl`; `aiResult` is what the
Vision Client returned for it, `costEstimate` the estimated repair cost
the Vision Client returns in step 4, and `confidenceThreshold` the
configured `config.ai.confidenceThreshold`.  A `some` result is the
`prisma.damage.create` of the source: exactly the persisted record; a
`none` result is the "no damage" sentinel (`return null`), with nothing
persisted.  The human-readable `description` string is presentation only
and is not modelled. -/
def detectDamageFromImage (confidenceThreshold : ℚ) (uploadUrl : String)
    (aiResult : AIDetectionResult) (costEstimate : ℚ)
    (params : DetectParams) : Option Damage :=
  if !aiResult.detected || aiResult.confidence < confidenceThreshold then
    none
  else
    some {
      inspectionId := params.inspectionId
      propertyId := params.propertyId
      room := params.room
      location := params.location
      damageType := mapAIDamageType (aiResult.damageType.getD "OTHER")
      severity := mapAISeverity (aiResult.severity.getD "MODERATE")
      aiDetected := true
      aiConfidence := some aiResult.confidence
      aiDamageType := aiResult.damageType
      aiSeverity := aiResult.severity
      estimatedCostAi := some costEstimate
      photos := [uploadUrl]
      status := .UNDER_REVIEW
    }

/- ## Work orders and vendors (cv-integration.service.ts, WorkOrderService) -/

/-- A `WorkOrder` row, restricted to the columns the services read or
write.  Timestamps are epoch milliseconds. -/
structure WorkOrder where
  id : String
  propertyId : String
  damageId : Option String := none
  vendorId : Option String := none
  status : WorkOrderStatus
  assignedAt : Option ℚ := none
  scheduledAt : Option ℚ := none
  startedAt : Option ℚ := none
  completedAt : Option ℚ := none
  estimatedCost : Option ℚ := none
  actualCost : Option ℚ := none
  laborCost : Option ℚ := none
  materialsCost : Option ℚ := none
  completionNotes : Option String := none
  vendorNotes : Option String := none
  verifiedAt : Option ℚ := none
  verifiedBy : Option String := none
  qualityRating : Option ℚ := none
  vendorRating : Option ℚ := none
  deriving DecidableEq, Repr

/-- A `Vendor` row, restricted to the statistics columns the services
read or write.  `avgCompletionTime` (days) and `avgResponseTime` (hours)
are the integer-valued running averages the source stores via
`Math.round`. -/
structure Vendor where
  id : String
  totalJobs : ℤ := 0
  completedJobs : ℤ := 0
  cancelledJobs : ℤ := 0
  avgCompletionTime : Option ℤ := none
  avgResponseTime : Option ℤ := none
  rating : Option ℚ := none
  qualityScore : Option ℚ := none
  deriving DecidableEq, Repr

/-- JavaScript truthiness of a nullable number column: `null` and `0`
are falsy, every other value truthy. -/
def numTruthy : Option ℤ → Bool
  | none => false
  | some n => n != 0

def msPerHour : ℚ := 1000 * 60 * 60

def msPerDay : ℚ := 1000 * 60 * 60 * 24

/-- Embeds `WorkOrderService.updateVendorStats` (cv-integration.service.ts).

`workOrder` is the already-updated record that `completeWorkOrder` passes
in (its `completedAt` is the completion time).  The Prisma update applies
the two `increment: 1` counters and the recomputed averages in one write;
the averages are computed from the `completedJobs` value read *before*
the increment.  The guards `if (completionTime)` / `if (responseTime)`
and the ternary `vendor.avgCompletionTime ? … : completionTime` are
JavaScript truthiness tests, so a `0` sample skips the merge and a
`null`-or-`0` stored average is replaced by the bare sample. -/
def updateVendorStats (vendor : Vendor) (workOrder : WorkOrder) : Vendor :=
  let completionTime : Option ℤ :=
    match workOrder.completedAt, workOrder.startedAt with
    | some c, some s => some (JsCeil ((c - s) / msPerDay))
    | _, _ => none
  let responseTime : Option ℤ :=
    match workOrder.assignedAt, workOrder.startedAt with
    | some a, some s => some (JsCeil ((s - a) / msPerHour))
    | _, _ => none
  let avgCompletionTime : Option ℤ :=
    match completionTime with
    | some ct =>
      if ct ≠ 0 then
        let newAvgCompletion : ℚ :=
          if numTruthy vendor.avgCompletionTime then
            ((vendor.avgCompletionTime.getD 0 : ℚ) * vendor.completedJobs + ct)
              / (vendor.completedJobs + 1)
          else (ct : ℚ)
        some (JsRound newAvgCompletion)
      else vendor.avgCompletionTime
    | none => vendor.avgCompletionTime
  let avgResponseTime : Option ℤ :=
    match responseTime with
    | some rt =>
      if rt ≠ 0 then
        let newAvgResponse : ℚ :=
          if numTruthy vendor.avgResponseTime then
            ((vendor.avgResponseTime.getD 0 : ℚ) * vendor.completedJobs + rt)
              / (vendor.completedJobs + 1)
          else (rt : ℚ)
        some (JsRound newAvgResponse)
      else vendor.avgResponseTime
    | none => vendor.avgResponseTime
  { vendor with
    totalJobs := vendor.totalJobs + 1
    completedJobs := vendor.completedJobs + 1
    avgCompletionTime := avgCompletionTime
    avgResponseTime := avgResponseTime }

/-- The sample size used by `updateVendorRating`: the source's
`vendor.completedJobs || 1`, i.e. the completed-job count with a falsy
(zero) count replaced by `1`. -/
def ratingSampleSize (vendor : Vendor) : ℤ :=
  if vendor.completedJobs ≠ 0 then vendor.completedJobs else 1

/-- Embeds `WorkOrderService.updateVendorRating` (cv-integration.service.ts).
`vendor.rating ? parseFloat(vendor.rating.toString()) : 0` is the stored
rating with `null` read as `0`. -/
def updateVendorRating (vendor : Vendor) (newRating : ℚ) : Vendor :=
  let currentRating : ℚ := vendor.rating.getD 0
  let totalRatings : ℤ := ratingSampleSize vendor
  let newAvgRating : ℚ :=
    (currentRating * ((totalRatings : ℚ) - 1) + newRating) / (totalRatings : ℚ)
  { vendor with rating := some newAvgRating }

/-- The optional cost/notes fields of `completeWorkOrder`; an absent
field is `undefined` in the source and is skipped by the Prisma
updates. -/
structure CompleteWorkOrderParams where
  actualCost : Option ℚ := none
  laborCost : Option ℚ := none
  materialsCost : Option ℚ := none
  completionNotes : Option String := none
  vendorNotes : Option String := none
  deriving DecidableEq, Repr

/-- The records touched by a work-order completion or verification: the
work order itself, its linked damage (when `damageId` is set) and its
vendor (when `vendorId` is set). -/
structure WorkOrderContext where
  workOrder : WorkOrder
  damage : Option Damage := none
  vendor : Option Vendor := none
  deriving DecidableEq, Repr

/-- Embeds `WorkOrderService.completeWorkOrder` (cv-integration.service.ts).
Sets the work order to `COMPLETED` with `completedAt := now`, patches the
supplied cost/notes fields; when `damageId` is set, updates the linked
damage to `REPAIRED` with `actualCost: params.actualCost` (skipped when
absent); when `vendorId` is set, runs `updateVendorStats` on the vendor
with the updated work order. -/
def completeWorkOrder (ctx : WorkOrderContext) (now : ℚ)
    (params : CompleteWorkOrderParams) : WorkOrderContext :=
  let workOrder : WorkOrder :=
    { ctx.workOrder with
      status := .COMPLETED
      completedAt := some now
      actualCost := patchField params.actualCost ctx.workOrder.actualCost
      laborCost := patchField params.laborCost ctx.workOrder.laborCost
      materialsCost := patchField params.materialsCost ctx.workOrder.materialsCost
      completionNotes := patchField params.completionNotes ctx.workOrder.completionNotes
      vendorNotes := patchField params.vendorNotes ctx.workOrder.vendorNotes }
  let damage : Option Damage :=
    if workOrder.damageId.isSome then
      ctx.damage.map fun d =>
        { d with
          status := .REPAIRED
          actualCost := patchField params.actualCost d.actualCost }
    else ctx.damage
  let vendor : Option Vendor :=
    if workOrder.vendorId.isSome then
      ctx.vendor.map fun v => updateVendorStats v workOrder
    else ctx.vendor
  { workOrder := workOrder, damage := damage, vendor := vendor }

/-- Embeds `WorkOrderService.verifyWorkOrder` (cv-integration.service.ts).
Sets the work order to `VERIFIED`, records verifier/timestamp/ratings;
when `damageId` is set, updates the linked damage to `VERIFIED`; when
`vendorId` is set, runs `updateVendorRating` with the submitted
`vendorRating`. -/
def verifyWorkOrder (ctx : WorkOrderContext) (now : ℚ)
    (verifiedBy : String) (qualityRating vendorRating : ℚ) :
    WorkOrderContext :=
  let workOrder : WorkOrder :=
    { ctx.workOrder with
      status := .VERIFIED
      verifiedAt := some now
      verifiedBy := some verifiedBy
      qualityRating := some qualityRating
      vendorRating := some vendorRating }
  let damage : Option Damage :=
    if workOrder.damageId.isSome then
      ctx.damage.map fun d => { d with status := .VERIFIED }
    else ctx.damage
  let vendor : Option Vendor :=
    if workOrder.vendorId.isSome then
      ctx.vendor.map fun v => updateVendorRating v vendorRating
    else ctx.vendor
  { workOrder := workOrder, damage := damage, vendor := vendor }

/- ## Vendor service (types/index.ts, VendorService) -/

/-- A `VendorReview` row, restricted to the columns the rating
recomputation reads. -/
structure VendorReview where
  vendorId : String
  rating : ℚ
  qualityRating : Option ℚ := none
  timelinessRating : Option ℚ := none
  communicationRating : Option ℚ := none
  professionalismRating : Option ℚ := none
  valueRating : Option ℚ := none
  deriving DecidableEq, Repr

/-- The parameters of `addReview` relevant to the stored review. -/
structure AddReviewParams where
  rating : ℚ
  qualityRating : Option ℚ := none
  timelinessRating : Option ℚ := none
  communicationRating : Option ℚ := none
  professionalismRating : Option ℚ := none
  valueRating : Option ℚ := none
  deriving DecidableEq, Repr

/-- One vendor's slice of the store: its row and its stored reviews (the
rows `recalculateVendorRating` fetches by `vendorId`). -/
structure VendorState where
  vendor : Vendor
  reviews : List VendorReview
  deriving DecidableEq, Repr

/-- Embeds `VendorService.recalculateVendorRating` (types/index.ts): with no
reviews it returns without writing; otherwise it writes the mean of all
review ratings to `rating` and, when at least one review carries a
quality sub-rating, the mean of those sub-ratings to `qualityScore`
(`avgQuality` is `undefined` otherwise, which Prisma skips). -/
def recalculateVendorRating (vendor : Vendor) (reviews : List VendorReview) :
    Vendor :=
  if reviews.length = 0 then vendor
  else
    let avgRating : ℚ := (reviews.map VendorReview.rating).sum / reviews.length
    let qualityReviews := reviews.filter fun r => r.qualityRating.isSome
    let avgQuality : Option ℚ :=
      if qualityReviews.length > 0 then
        some ((qualityReviews.map fun r => r.qualityRating.getD 0).sum
          / qualityReviews.length)
      else none
    { vendor with
      rating := some avgRating
      qualityScore := patchField avgQuality vendor.qualityScore }

/-- Embeds `VendorService.addReview` (types/index.ts).  A rating outside
`[1, 5]` throws before anything is written, so the state component of
the result is the unchanged input state; otherwise the review row is
created and `recalculateVendorRating` runs over all stored reviews. -/
def addReview (st : VendorState) (vendorId : String)
    (params : AddReviewParams) : VendorState × Except String VendorReview :=
  if params.rating < 1 ∨ params.rating > 5 then
    (st, Except.error "Rating must be between 1 and 5")
  else
    let review : VendorReview :=
      { vendorId := vendorId
        rating := params.rating
        qualityRating := params.qualityRating
        timelinessRating := params.timelinessRating
        communicationRating := params.communicationRating
        professionalismRating := params.professionalismRating
        valueRating := params.valueRating }
    let reviews := st.reviews ++ [review]
    let vendor := recalculateVendorRating st.vendor reviews
    ({ vendor := vendor, reviews := reviews }, Except.ok review)

/-- The work-order statuses `deleteVendor` counts as active. -/
def activeStatuses : List WorkOrderStatus :=
  [.PENDING, .ASSIGNED, .SCHEDULED, .IN_PROGRESS]

/-- Embeds `VendorService.deleteVendor` (types/index.ts): counts the vendor's
work orders whose status is in `activeStatuses`; a positive count throws
before anything is written (the vendor list is returned unchanged),
otherwise the vendor row is deleted. -/
def deleteVendor (vendors : List Vendor) (workOrders : List WorkOrder)
    (id : String) : List Vendor × Except String Unit :=
  let activeWorkOrders :=
    (workOrders.filter fun w =>
      w.vendorId == some id && activeStatuses.contains w.status).length
  if activeWorkOrders > 0 then
    (vendors, Except.error "Cannot delete vendor with active work orders")
  else
    (vendors.filter fun v => v.id != id, Except.ok ())

/- ## Inspection service (unnamed InspectionService source file) -/

/-- A GPS fix as carried by the inspection endpoints. -/
structure GeoPoint where
  latitude : ℚ
  longitude : ℚ
  accuracy : ℚ
  deriving DecidableEq, Repr

/-- A photo-metadata record appended by `InspectionService.addPhoto`. -/
structure PhotoMetadata where
  url : String
  timestamp : ℚ
  gps : Option GeoPoint := none
  room : String := ""
  deriving DecidableEq, Repr

/-- An `Inspection` row, restricted to the columns the service reads or
writes. -/
structure Inspection where
  propertyId : String
  inspectorId : String
  status : InspectionStatus
  scheduledAt : ℚ
  startedAt : Option ℚ := none
  completedAt : Option ℚ := none
  photos : List PhotoMetadata := []
  overallCondition : Option Condition := none
  notes : Option String := none
  startLocation : Option GeoPoint := none
  endLocation : Option GeoPoint := none
  reportUrl : Option String := none
  reportGeneratedAt : Option ℚ := none
  deriving DecidableEq, Repr

/-- The patch accepted by `updateInspection`; an absent (`undefined`)
field is skipped by the `params.x !== undefined` guards. -/
structure UpdateInspectionParams where
  status : Option InspectionStatus := none
  startedAt : Option ℚ := none
  completedAt : Option ℚ := none
  photos : Option (List PhotoMetadata) := none
  overallCondition : Option Condition := none
  notes : Option String := none
  startLocation : Option GeoPoint := none
  endLocation : Option GeoPoint := none
  deriving DecidableEq, Repr

/-- Embeds `InspectionService.createInspection`: a new row in `SCHEDULED`. -/
def createInspection (propertyId inspectorId : String) (scheduledAt : ℚ)
    (notes : Option String) : Inspection :=
  { propertyId := propertyId
    inspectorId := inspectorId
    status := .SCHEDULED
    scheduledAt := scheduledAt
    notes := notes }

/-- Embeds `InspectionService.updateInspection`: the generic field patch. -/
def updateInspection (i : Inspection) (params : UpdateInspectionParams) :
    Inspection :=
  { i with
    status := params.status.getD i.status
    startedAt := patchField params.startedAt i.startedAt
    completedAt := patchField params.completedAt i.completedAt
    photos := params.photos.getD i.photos
    overallCondition := patchField params.overallCondition i.overallCondition
    notes := patchField params.notes i.notes
    startLocation := patchField params.startLocation i.startLocation
    endLocation := patchField params.endLocation i.endLocation }

/-- Embeds `InspectionService.startInspection`. -/
def startInspection (i : Inspection) (now : ℚ) (location : Option GeoPoint) :
    Inspection :=
  updateInspection i
    { status := some .IN_PROGRESS
      startedAt := some now
      startLocation := location }

/-- Embeds `InspectionService.completeInspection`. -/
def completeInspection (i : Inspection) (now : ℚ)
    (overallCondition : Condition) (notes : Option String)
    (location : Option GeoPoint) : Inspection :=
  updateInspection i
    { status := some .COMPLETED
      completedAt := some now
      overallCondition := some overallCondition
      notes := notes
      endLocation := location }

/-- Embeds `InspectionService.addPhoto`: the uploaded image's URL and metadata
are appended to the photo list via `updateInspection`. -/
def addPhoto (i : Inspection) (url : String) (now : ℚ)
    (gps : Option GeoPoint) (room : String) : Inspection :=
  updateInspection i
    { photos :=
        some (i.photos ++ [{ url := url, timestamp := now, gps := gps, room := room }]) }

/-- The inspection-row update at the end of
`InspectionService.generateReport`: a direct Prisma update of
`reportUrl` and `reportGeneratedAt` only. -/
def setReportUrl (i : Inspection) (url : String) (now : ℚ) : Inspection :=
  { i with reportUrl := some url, reportGeneratedAt := some now }

/-- The invariant of the spec: `completedAt` set implies the status is
`COMPLETED`. -/
def completedAtInv (i : Inspection) : Prop :=
  i.completedAt.isSome → i.status = .COMPLETED

instance (i : Inspection) : Decidable (completedAtInv i) := by
  unfold completedAtInv
  infer_instance

/- ## Report rendering (InspectionService.generateReport) -/

/-- Embeds `InspectionService.wrapText`. -/
def wrapText (text : String) (maxLength : ℕ) : List String :=
  let words := text.splitOn " "
  let step := fun (acc : List String × String) (word : String) =>
    let (lines, currentLine) := acc
    if (currentLine ++ word).length > maxLength then
      (lines ++ [currentLine.trim], word ++ " ")
    else
      (lines, currentLine ++ word ++ " ")
  let (lines, currentLine) := words.foldl step ([], "")
  if currentLine.trim ≠ "" then lines ++ [currentLine.trim] else lines

/-- One damage row of the report (the fields interpolated into the
bullet line). -/
structure DamageRow where
  damageType : String
  severity : String
  room : String
  deriving DecidableEq, Repr

/-- The inspection data `generateReport` renders; only the parts that
influence layout are kept (the interpolated strings do not move the
cursor in the source, which steps `yPosition` by fixed amounts). -/
structure ReportInput where
  damages : List DamageRow
  notes : Option String := none
  deriving DecidableEq, Repr

/-- One `page.drawText` call: the index of the page object it targets
within `pdfDoc` and its coordinates.  Every coordinate computed by
`generateReport` is integer-valued (the source only adds and subtracts
the constants 50, 40, 30, 25, 20, 15 from `height = 792`), so the
cursor is embedded over `ℤ`. -/
structure DrawOp where
  pageIndex : ℕ
  x : ℤ
  y : ℤ
  deriving DecidableEq, Repr

/-- The rendering state of `generateReport`: the draw calls issued so
far, the cursor `yPosition`, and the number of pages added to the
document. -/
structure DrawState where
  ops : List DrawOp
  y : ℤ
  numPages : ℕ
  deriving DecidableEq, Repr

def pageHeight : ℤ := 792

/-- The value `height - 50`, the `yPosition` used at the top of a page. -/
def topY : ℤ := pageHeight - 50

/-- One iteration of the damages loop in `generateReport`: draw the
bullet at `(70, yPosition)` on the `page` variable — which the source
never rebinds, so the target is always the first page (index `0`) — then
`yPosition -= 20`, and if the cursor fell below the `100` threshold, add
a new page to the document and reset the cursor to the top.  The added
page (`newPage`) is never drawn on by the source. -/
def damageLoopStep (st : DrawState) (_d : DamageRow) : DrawState :=
  let st1 : DrawState := { st with ops := st.ops ++ [⟨0, 70, st.y⟩] }
  let y1 := st1.y - 20
  if y1 < 100 then
    { st1 with y := topY, numPages := st1.numPages + 1 }
  else
    { st1 with y := y1 }

/-- The drawing phase of `InspectionService.generateReport`: title,
seven detail lines, the damages section, and the notes section, tracking
every `page.drawText` call, the cursor, and the page count.  All draw
calls in the source go through the `page` binding created for the first
page, hence `pageIndex = 0` throughout. -/
def generateReportOps (input : ReportInput) : DrawState :=
  let st0 : DrawState := { ops := [⟨0, 50, topY⟩], y := topY - 40, numPages := 1 }
  let stDetails :=
    (List.range 7).foldl
      (fun st _ => { st with ops := st.ops ++ [⟨0, 50, st.y⟩], y := st.y - 20 })
      st0
  let st1 : DrawState := { stDetails with y := stDetails.y - 20 }
  let st2 : DrawState :=
    if input.damages.length > 0 then
      let stHeader : DrawState :=
        { st1 with ops := st1.ops ++ [⟨0, 50, st1.y⟩], y := st1.y - 30 }
      input.damages.foldl damageLoopStep stHeader
    else st1
  match input.notes with
  | some notes =>
    let stN0 : DrawState := { st2 with y := st2.y - 20 }
    let stN1 : DrawState :=
      { stN0 with ops := stN0.ops ++ [⟨0, 50, stN0.y⟩], y := stN0.y - 25 }
    (wrapText notes 80).foldl
      (fun st _line => { st with ops := st.ops ++ [⟨0, 50, st.y⟩], y := st.y - 15 })
      stN1
  | none => st2

/- ## Theorems -/

theorem patchField_some {α : Type} (v : α) (old : Option α) :
    patchField (some v) old = some v := rfl

theorem patchField_none {α : Type} (old : Option α) :
    patchField (none : Option α) old = old := rfl

/-- Rounding `JsRound` of an integer is that integer. -/
theorem JsRound_intCast (n : ℤ) : JsRound (n : ℚ) = n := by
  unfold JsRound
  rw [add_comm]
  rw [Int.floor_add_int]
  norm_num

/-- C1: a call to `detectDamageFromImage` persists a `Damage` record iff
the Vision Client reports `detected = true` and a confidence at least
the configured threshold (equality accepted); otherwise it returns the
"no damage" sentinel and persists nothing; a persisted record has status
`UNDER_REVIEW` with the AI fields populated. -/
theorem detectDamageFromImage_persists_iff (threshold : ℚ) (url : String)
    (ai : AIDetectionResult) (cost : ℚ) (p : DetectParams) :
    ((detectDamageFromImage threshold url ai cost p).isSome ↔
      ai.detected = true ∧ threshold ≤ ai.confidence) ∧
    ∀ d, detectDamageFromImage threshold url ai cost p = some d →
      d.status = .UNDER_REVIEW ∧ d.aiDetected = true ∧
        d.aiConfidence = some ai.confidence ∧
        d.aiDamageType = ai.damageType ∧ d.aiSeverity = ai.severity ∧
        d.damageType = mapAIDamageType (ai.damageType.getD "OTHER") ∧
        d.severity = mapAISeverity (ai.severity.getD "MODERATE") ∧
        d.estimatedCostAi = some cost ∧ d.photos = [url] := by
  constructor
  · cases hdet : ai.detected with
    | false => simp [detectDamageFromImage, hdet]
    | true =>
      by_cases hc : ai.confidence < threshold
      · simp only [detectDamageFromImage, hdet, hc]
        simp [not_le.mpr hc]
      · simp only [detectDamageFromImage, hdet, hc]
        simp [not_lt.mp hc]
  · intro d hd
    unfold detectDamageFromImage at hd
    by_cases hcond : (!ai.detected || decide (ai.confidence < threshold)) = true
    · rw [if_pos hcond] at hd
      exact absurd hd (by simp)
    · rw [if_neg hcond] at hd
      cases hd
      refine ⟨rfl, rfl, rfl, rfl, rfl, rfl, rfl, rfl, rfl⟩

/-- C1 witness: a detection at confidence exactly equal to the threshold
(the boundary case) persists the expected `UNDER_REVIEW` record. -/
theorem detectDamageFromImage_persists_iff_witness :
    ({ inspectionId := "insp1", propertyId := "prop1", room := "kitchen",
       location := "north wall", damageType := .STAIN, severity := .MINOR,
       status := .UNDER_REVIEW, aiDetected := true,
       aiConfidence := some 1, aiDamageType := some "stain",
       aiSeverity := some "minor", estimatedCostAi := some 120,
       photos := ["url1"] } : Damage).status = .UNDER_REVIEW ∧
    ({ inspectionId := "insp1", propertyId := "prop1", room := "kitchen",
       location := "north wall", damageType := .STAIN, severity := .MINOR,
       status := .UNDER_REVIEW, aiDetected := true,
       aiConfidence := some 1, aiDamageType := some "stain",
       aiSeverity := some "minor", estimatedCostAi := some 120,
       photos := ["url1"] } : Damage).aiDetected = true := by
  have h := (detectDamageFromImage_persists_iff 1 "url1"
    { detected := true, confidence := 1, damageType := some "stain",
      severity := some "minor" } 120
    { inspectionId := "insp1", propertyId := "prop1", room := "kitchen",
      location := "north wall" }).2
    { inspectionId := "insp1", propertyId := "prop1", room := "kitchen",
      location := "north wall", damageType := .STAIN, severity := .MINOR,
      status := .UNDER_REVIEW, aiDetected := true,
      aiConfidence := some 1, aiDamageType := some "stain",
      aiSeverity := some "minor", estimatedCostAi := some 120,
      photos := ["url1"] } (by decide)
  exact ⟨h.1, h.2.1⟩

/-- C2 counterexample: completing a work order that already carries
`actualCost = 100` (set earlier through the generic patch) with a
completion call that supplies no `actualCost` leaves the linked damage
in `REPAIRED` but with its `actualCost` still unset, different from the
work order's `actualCost` — the claim's unconditional equality fails. -/
theorem completeWorkOrder_counterexample :
    (completeWorkOrder
      { workOrder := { id := "wo1", propertyId := "p1", damageId := some "d1",
                       status := .IN_PROGRESS, actualCost := some 100 }
        damage := some { inspectionId := "i1", propertyId := "p1",
                         room := "kitchen", location := "wall",
                         damageType := .STAIN, severity := .MINOR,
                         status := .REPAIR_SCHEDULED } } 0 {}).damage.map
        Damage.status = some .REPAIRED ∧
    (completeWorkOrder
      { workOrder := { id := "wo1", propertyId := "p1", damageId := some "d1",
                       status := .IN_PROGRESS, actualCost := some 100 }
        damage := some { inspectionId := "i1", propertyId := "p1",
                         room := "kitchen", location := "wall",
                         damageType := .STAIN, severity := .MINOR,
                         status := .REPAIR_SCHEDULED } } 0 {}).workOrder.actualCost
      = some 100 ∧
    (completeWorkOrder
      { workOrder := { id := "wo1", propertyId := "p1", damageId := some "d1",
                       status := .IN_PROGRESS, actualCost := some 100 }
        damage := some { inspectionId := "i1", propertyId := "p1",
                         room := "kitchen", location := "wall",
                         damageType := .STAIN, severity := .MINOR,
                         status := .REPAIR_SCHEDULED } } 0 {}).damage.map
        Damage.actualCost ≠
      some ((completeWorkOrder
        { workOrder := { id := "wo1", propertyId := "p1", damageId := some "d1",
                         status := .IN_PROGRESS, actualCost := some 100 }
          damage := some { inspectionId := "i1", propertyId := "p1",
                           room := "kitchen", location := "wall",
                           damageType := .STAIN, severity := .MINOR,
                           status := .REPAIR_SCHEDULED } } 0 {}).workOrder.actualCost) := by
  refine ⟨rfl, rfl, ?_⟩
  decide

/-- C2 (amended): completing a work order linked to a damage always
leaves the damage in `REPAIRED` regardless of its prior state; the
damage's `actualCost` is set to the work order's `actualCost` whenever
the completion call supplies an `actualCost`, and is left unchanged
(possibly differing from the work order's) when it does not. -/
theorem completeWorkOrder_cascade (ctx : WorkOrderContext) (d : Damage)
    (now : ℚ) (params : CompleteWorkOrderParams)
    (hdid : ctx.workOrder.damageId.isSome) (hd : ctx.damage = some d) :
    (completeWorkOrder ctx now params).workOrder.status = .COMPLETED ∧
    (completeWorkOrder ctx now params).damage.map Damage.status =
      some .REPAIRED ∧
    (∀ c, params.actualCost = some c →
      (completeWorkOrder ctx now params).damage.map Damage.actualCost =
        some (some c) ∧
      (completeWorkOrder ctx now params).workOrder.actualCost = some c) ∧
    (params.actualCost = none →
      (completeWorkOrder ctx now params).damage.map Damage.actualCost =
        some d.actualCost) := by
  unfold completeWorkOrder
  refine ⟨rfl, ?_, ?_, ?_⟩
  · simp [hdid, hd]
  · intro c hc
    simp [hdid, hd, hc, patchField]
  · intro hc
    simp [hdid, hd, hc, patchField]

/-- C2 witness: completing an `IN_PROGRESS` work order linked to damage
`d1` with `actualCost = 250` yields damage status `REPAIRED` and copies
the cost. -/
theorem completeWorkOrder_cascade_witness :
    (completeWorkOrder
      { workOrder := { id := "wo1", propertyId := "p1", damageId := some "d1",
                       status := .IN_PROGRESS }
        damage := some { inspectionId := "i1", propertyId := "p1",
                         room := "kitchen", location := "wall",
                         damageType := .STAIN, severity := .MINOR,
                         status := .REPAIR_SCHEDULED } } 7
      { actualCost := some 250 }).damage.map Damage.status =
      some .REPAIRED ∧
    (completeWorkOrder
      { workOrder := { id := "wo1", propertyId := "p1", damageId := some "d1",
                       status := .IN_PROGRESS }
        damage := some { inspectionId := "i1", propertyId := "p1",
                         room := "kitchen", location := "wall",
                         damageType := .STAIN, severity := .MINOR,
                         status := .REPAIR_SCHEDULED } } 7
      { actualCost := some 250 }).damage.map Damage.actualCost =
      some (some 250) := by
  have h := completeWorkOrder_cascade
    { workOrder := { id := "wo1", propertyId := "p1", damageId := some "d1",
                     status := .IN_PROGRESS }
      damage := some { inspectionId := "i1", propertyId := "p1",
                       room := "kitchen", location := "wall",
                       damageType := .STAIN, severity := .MINOR,
                       status := .REPAIR_SCHEDULED } }
    { inspectionId := "i1", propertyId := "p1", room := "kitchen",
      location := "wall", damageType := .STAIN, severity := .MINOR,
      status := .REPAIR_SCHEDULED } 7 { actualCost := some 250 }
    (by decide) rfl
  exact ⟨h.2.1, (h.2.2.1 250 rfl).1⟩

/-- C3 counterexample: a completion whose `startedAt` and `completedAt`
are both known but equal gives `completionTime = ceil(0) = 0`, which is
falsy, so `updateVendorStats` leaves the vendor's average untouched
(`some 4`), while the claimed unconditional merge formula would give
`round((4 × 1 + 0) / 2) = 2`. -/
theorem updateVendorStats_counterexample :
    (updateVendorStats
      { id := "v1", totalJobs := 1, completedJobs := 1,
        avgCompletionTime := some 4 }
      { id := "wo1", propertyId := "p1", status := .COMPLETED,
        startedAt := some 0, completedAt := some 0 }).avgCompletionTime =
      some 4 ∧
    JsRound (((4 : ℚ) * 1 + (JsCeil (((0 : ℚ) - 0) / msPerDay) : ℚ)) / (1 + 1))
      = 2 ∧
    (updateVendorStats
      { id := "v1", totalJobs := 1, completedJobs := 1,
        avgCompletionTime := some 4 }
      { id := "wo1", propertyId := "p1", status := .COMPLETED,
        startedAt := some 0, completedAt := some 0 }).avgCompletionTime ≠
      some (JsRound (((4 : ℚ) * 1 +
        (JsCeil (((0 : ℚ) - 0) / msPerDay) : ℚ)) / (1 + 1))) := by
  have hceil : JsCeil (((0 : ℚ) - 0) / msPerDay) = 0 := by
    norm_num [JsCeil, msPerDay]
  have hceil0 : JsCeil (0 : ℚ) = 0 := by norm_num [JsCeil]
  have hupd : (updateVendorStats
      { id := "v1", totalJobs := 1, completedJobs := 1,
        avgCompletionTime := some 4 }
      { id := "wo1", propertyId := "p1", status := .COMPLETED,
        startedAt := some 0, completedAt := some 0 }).avgCompletionTime =
      some 4 := by
    simp [updateVendorStats, hceil0]
  have hclaim : JsRound (((4 : ℚ) * 1 +
      (JsCeil (((0 : ℚ) - 0) / msPerDay) : ℚ)) / (1 + 1)) = 2 := by
    rw [hceil]
    norm_num [JsRound]
  refine ⟨hupd, hclaim, ?_⟩
  rw [hupd, hclaim]
  decide

/-- C3 (amended): on every completion, `totalJobs` and `completedJobs`
are incremented by 1; when `startedAt` and `completedAt` are both known,
`completionTime = ceil(days between them)` is merged into
`avgCompletionTime` by
`round((oldAvg × completedJobsBeforeIncrement + sample) / (completedJobsBeforeIncrement + 1))`
only when the sample is nonzero *and* the stored average is neither null
nor zero; a zero sample leaves the average untouched, and a null-or-zero
stored average is replaced by the bare sample; likewise for
`responseTime = ceil(hours between assignedAt and startedAt)` and
`avgResponseTime`. -/
theorem updateVendorStats_amended (v : Vendor) (wo : WorkOrder) :
    (updateVendorStats v wo).totalJobs = v.totalJobs + 1 ∧
    (updateVendorStats v wo).completedJobs = v.completedJobs + 1 ∧
    (∀ c s, wo.completedAt = some c → wo.startedAt = some s →
      (JsCeil ((c - s) / msPerDay) = 0 →
        (updateVendorStats v wo).avgCompletionTime = v.avgCompletionTime) ∧
      (JsCeil ((c - s) / msPerDay) ≠ 0 →
        (∀ a, v.avgCompletionTime = some a → a ≠ 0 →
          (updateVendorStats v wo).avgCompletionTime =
            some (JsRound (((a : ℚ) * (v.completedJobs : ℚ) +
              (JsCeil ((c - s) / msPerDay) : ℚ)) / ((v.completedJobs : ℚ) + 1)))) ∧
        ((v.avgCompletionTime = none ∨ v.avgCompletionTime = some 0) →
          (updateVendorStats v wo).avgCompletionTime =
            some (JsCeil ((c - s) / msPerDay))))) ∧
    (∀ a s, wo.assignedAt = some a → wo.startedAt = some s →
      (JsCeil ((s - a) / msPerHour) = 0 →
        (updateVendorStats v wo).avgResponseTime = v.avgResponseTime) ∧
      (JsCeil ((s - a) / msPerHour) ≠ 0 →
        (∀ b, v.avgResponseTime = some b → b ≠ 0 →
          (updateVendorStats v wo).avgResponseTime =
            some (JsRound (((b : ℚ) * (v.completedJobs : ℚ) +
              (JsCeil ((s - a) / msPerHour) : ℚ)) / ((v.completedJobs : ℚ) + 1)))) ∧
        ((v.avgResponseTime = none ∨ v.avgResponseTime = some 0) →
          (updateVendorStats v wo).avgResponseTime =
            some (JsCeil ((s - a) / msPerHour))))) := by
  refine ⟨rfl, rfl, ?_, ?_⟩
  · intro c s hc hs
    constructor
    · intro hct
      simp [updateVendorStats, hc, hs, hct]
    · intro hct
      constructor
      · intro a ha ha0
        simp [updateVendorStats, hc, hs, hct, ha, numTruthy, ha0]
      · rintro (ha | ha) <;>
          simp [updateVendorStats, hc, hs, hct, ha, numTruthy, JsRound_intCast]
  · intro a s ha hs
    constructor
    · intro hrt
      simp [updateVendorStats, ha, hs, hrt]
    · intro hrt
      constructor
      · intro b hb hb0
        simp [updateVendorStats, ha, hs, hrt, hb, numTruthy, hb0]
      · rintro (hb | hb) <;>
          simp [updateVendorStats, ha, hs, hrt, hb, numTruthy, JsRound_intCast]

/-- C3 witness (spec scenario D, second completion): a vendor with one
completed job and `avgCompletionTime = 2` completing a 4-day work order
ends with `avgCompletionTime = round((2 × 1 + 4) / 2) = 3` and both
counters incremented. -/
theorem updateVendorStats_amended_witness :
    (updateVendorStats
      { id := "v1", totalJobs := 1, completedJobs := 1,
        avgCompletionTime := some 2 }
      { id := "wo2", propertyId := "p1", status := .COMPLETED,
        startedAt := some 0, completedAt := some 345600000 }).totalJobs = 2 ∧
    (updateVendorStats
      { id := "v1", totalJobs := 1, completedJobs := 1,
        avgCompletionTime := some 2 }
      { id := "wo2", propertyId := "p1", status := .COMPLETED,
        startedAt := some 0, completedAt := some 345600000 }).completedJobs = 2 ∧
    (updateVendorStats
      { id := "v1", totalJobs := 1, completedJobs := 1,
        avgCompletionTime := some 2 }
      { id := "wo2", propertyId := "p1", status := .COMPLETED,
        startedAt := some 0, completedAt := some 345600000 }).avgCompletionTime =
      some 3 := by
  have hceil : JsCeil (((345600000 : ℚ) - 0) / msPerDay) = 4 := by
    norm_num [JsCeil, msPerDay]
  have h := updateVendorStats_amended
    { id := "v1", totalJobs := 1, completedJobs := 1,
      avgCompletionTime := some 2 }
    { id := "wo2", propertyId := "p1", status := .COMPLETED,
      startedAt := some 0, completedAt := some 345600000 }
  refine ⟨h.1, h.2.1, ?_⟩
  have havg := (((h.2.2.1 345600000 0 rfl rfl).2 (by rw [hceil]; decide)).1 2
    rfl (by decide))
  rw [havg, hceil]
  norm_num [JsRound]

/-- C4: after a successful `addReview`, the vendor's `rating` is the
arithmetic mean of all stored review ratings, and whenever at least one
stored review carries a quality sub-rating, `qualityScore` is the
arithmetic mean of the non-null quality sub-ratings. -/
theorem addReview_recalculates (st : VendorState) (vendorId : String)
    (p : AddReviewParams) (st' : VendorState) (rev : VendorReview)
    (h : addReview st vendorId p = (st', Except.ok rev)) :
    st'.vendor.rating =
      some ((st'.reviews.map VendorReview.rating).sum / (st'.reviews.length : ℚ)) ∧
    (0 < (st'.reviews.filter fun r => r.qualityRating.isSome).length →
      st'.vendor.qualityScore =
        some (((st'.reviews.filter fun r => r.qualityRating.isSome).map
            fun r => r.qualityRating.getD 0).sum /
          ((st'.reviews.filter fun r => r.qualityRating.isSome).length : ℚ))) := by
  unfold addReview at h
  by_cases hv : p.rating < 1 ∨ p.rating > 5
  · rw [if_pos hv] at h
    exact absurd (congrArg Prod.snd h) (by simp)
  · rw [if_neg hv] at h
    have hst : st' =
        { vendor := recalculateVendorRating st.vendor (st.reviews ++
            [{ vendorId := vendorId, rating := p.rating,
               qualityRating := p.qualityRating,
               timelinessRating := p.timelinessRating,
               communicationRating := p.communicationRating,
               professionalismRating := p.professionalismRating,
               valueRating := p.valueRating }])
          reviews := st.reviews ++
            [{ vendorId := vendorId, rating := p.rating,
               qualityRating := p.qualityRating,
               timelinessRating := p.timelinessRating,
               communicationRating := p.communicationRating,
               professionalismRating := p.professionalismRating,
               valueRating := p.valueRating }] } :=
      (congrArg Prod.fst h).symm
    have hlen : st'.reviews.length ≠ 0 := by
      rw [hst]
      simp
    constructor
    · have : st'.vendor = recalculateVendorRating st.vendor st'.reviews := by
        rw [hst]
      rw [this]
      unfold recalculateVendorRating
      rw [if_neg hlen]
    · intro hq
      have : st'.vendor = recalculateVendorRating st.vendor st'.reviews := by
        rw [hst]
      rw [this]
      unfold recalculateVendorRating
      rw [if_neg hlen]
      simp only [hq, if_pos]
      rfl

/-- C4 witness: two reviews (ratings 4 and 5, one quality sub-rating 3)
yield `rating = 9/2` and `qualityScore = 3`. -/
theorem addReview_recalculates_witness :
    ((addReview
        { vendor := { id := "v1" },
          reviews := [{ vendorId := "v1", rating := 4 }] }
        "v1" { rating := 5, qualityRating := some 3 }).1.vendor.rating =
      some ((([{ vendorId := "v1", rating := 4 },
        { vendorId := "v1", rating := 5, qualityRating := some 3 }] :
          List VendorReview).map VendorReview.rating).sum / (2 : ℚ))) ∧
    ((addReview
        { vendor := { id := "v1" },
          reviews := [{ vendorId := "v1", rating := 4 }] }
        "v1" { rating := 5, qualityRating := some 3 }).1.vendor.qualityScore =
      some ((3 : ℚ) / 1)) := by
  have h := addReview_recalculates
    { vendor := { id := "v1" }, reviews := [{ vendorId := "v1", rating := 4 }] }
    "v1" { rating := 5, qualityRating := some 3 }
    (addReview
      { vendor := { id := "v1" }, reviews := [{ vendorId := "v1", rating := 4 }] }
      "v1" { rating := 5, qualityRating := some 3 }).1
    { vendorId := "v1", rating := 5, qualityRating := some 3 }
    (by norm_num [addReview])
  constructor
  · have h1 := h.1
    rw [h1]
    norm_num [addReview]
  · have h2 := h.2 (by norm_num [addReview])
    rw [h2]
    norm_num [addReview]

/-- C5: `addReview` succeeds only for ratings in `[1, 5]`; a rating
outside the range fails with the validation error and leaves the state
(stored reviews, vendor rating and quality score) untouched; a rating in
range stores exactly one new review. -/
theorem addReview_validates (st : VendorState) (vendorId : String)
    (p : AddReviewParams) :
    ((p.rating < 1 ∨ p.rating > 5) →
      addReview st vendorId p =
        (st, Except.error "Rating must be between 1 and 5")) ∧
    (1 ≤ p.rating → p.rating ≤ 5 →
      ∃ rev, (addReview st vendorId p).2 = Except.ok rev ∧
        (addReview st vendorId p).1.reviews = st.reviews ++ [rev] ∧
        rev.rating = p.rating) := by
  constructor
  · intro hv
    unfold addReview
    rw [if_pos hv]
  · intro h1 h5
    have hv : ¬(p.rating < 1 ∨ p.rating > 5) := by
      push_neg
      exact ⟨h1, h5⟩
    unfold addReview
    rw [if_neg hv]
    exact ⟨_, rfl, rfl, rfl⟩

/-- C5 witness: rating 6 is rejected without side effect, rating 5 is
accepted. -/
theorem addReview_validates_witness :
    (addReview { vendor := { id := "v1" }, reviews := [] } "v1"
        { rating := 6 } =
      ({ vendor := { id := "v1" }, reviews := [] },
        Except.error "Rating must be between 1 and 5")) ∧
    (∃ rev, (addReview { vendor := { id := "v1" }, reviews := [] } "v1"
        { rating := 5 }).2 = Except.ok rev ∧
      (addReview { vendor := { id := "v1" }, reviews := [] } "v1"
        { rating := 5 }).1.reviews = [] ++ [rev] ∧
      rev.rating = 5) := by
  constructor
  · exact (addReview_validates { vendor := { id := "v1" }, reviews := [] }
      "v1" { rating := 6 }).1 (by norm_num)
  · exact (addReview_validates { vendor := { id := "v1" }, reviews := [] }
      "v1" { rating := 5 }).2 (by norm_num) (by norm_num)

/-- C6: `deleteVendor` fails with the conflict error and leaves the
vendor list unchanged whenever at least one of the vendor's work orders
has a status in {`PENDING`, `ASSIGNED`, `SCHEDULED`, `IN_PROGRESS`};
with no such work order it succeeds and removes exactly the record with
that id. -/
theorem deleteVendor_conflict (vendors : List Vendor)
    (workOrders : List WorkOrder) (id : String) :
    ((∃ w ∈ workOrders, w.vendorId = some id ∧ w.status ∈ activeStatuses) →
      deleteVendor vendors workOrders id =
        (vendors, Except.error "Cannot delete vendor with active work orders")) ∧
    ((∀ w ∈ workOrders, w.vendorId = some id → w.status ∉ activeStatuses) →
      (deleteVendor vendors workOrders id).2 = Except.ok () ∧
      (deleteVendor vendors workOrders id).1 =
        vendors.filter (fun v => v.id != id) ∧
      (∀ v ∈ (deleteVendor vendors workOrders id).1, v.id ≠ id) ∧
      (∀ v ∈ vendors, v.id ≠ id →
        v ∈ (deleteVendor vendors workOrders id).1)) := by
  constructor
  · rintro ⟨w, hw, hvid, hstat⟩
    unfold deleteVendor
    rw [if_pos]
    apply List.length_pos.mpr
    intro hnil
    rw [List.filter_eq_nil_iff] at hnil
    exact absurd (by simp [hvid, List.contains, List.elem_iff, hstat] :
      (w.vendorId == some id && activeStatuses.contains w.status) = true)
      (by simpa using hnil w hw)
  · intro hall
    have hfil : workOrders.filter
        (fun w => w.vendorId == some id && activeStatuses.contains w.status)
        = [] := by
      rw [List.filter_eq_nil_iff]
      intro w hw
      by_cases hvid : w.vendorId = some id
      · have := hall w hw hvid
        simp [hvid, List.contains, List.elem_iff, this]
      · simp [hvid]
    unfold deleteVendor
    rw [hfil]
    refine ⟨rfl, rfl, ?_, ?_⟩
    · intro v hv
      have := (List.mem_filter.mp hv).2
      simpa using this
    · intro v hv hvne
      exact List.mem_filter.mpr ⟨hv, by simpa using hvne⟩

/-- C6 witness: a vendor with one `IN_PROGRESS` work order cannot be
deleted and the list is unchanged; a vendor whose only work order is
`COMPLETED` is deleted. -/
theorem deleteVendor_conflict_witness :
    (deleteVendor [{ id := "v1" }]
      [{ id := "wo1", propertyId := "p1", vendorId := some "v1",
         status := .IN_PROGRESS }] "v1" =
      ([{ id := "v1" }],
        Except.error "Cannot delete vendor with active work orders")) ∧
    ((deleteVendor [{ id := "v1" }]
      [{ id := "wo1", propertyId := "p1", vendorId := some "v1",
         status := .COMPLETED }] "v1").2 = Except.ok () ∧
    (deleteVendor [{ id := "v1" }]
      [{ id := "wo1", propertyId := "p1", vendorId := some "v1",
         status := .COMPLETED }] "v1").1 =
      ([{ id := "v1" }] : List Vendor).filter (fun v => v.id != "v1")) := by
  constructor
  · exact (deleteVendor_conflict [{ id := "v1" }]
      [{ id := "wo1", propertyId := "p1", vendorId := some "v1",
         status := .IN_PROGRESS }] "v1").1
      ⟨{ id := "wo1", propertyId := "p1", vendorId := some "v1",
         status := .IN_PROGRESS }, by decide, rfl, by decide⟩
  · have h := (deleteVendor_conflict [{ id := "v1" }]
      [{ id := "wo1", propertyId := "p1", vendorId := some "v1",
         status := .COMPLETED }] "v1").2 (by decide)
    exact ⟨h.1, h.2.1⟩

/-- C7: for a vendor whose (post-increment) `completedJobs` count is at
least 1, the verification-path rating update stores
`(oldRating × (completedJobs − 1) + vendorRating) / completedJobs`,
with a null stored rating read as 0. -/
theorem updateVendorRating_formula (v : Vendor) (r : ℚ)
    (h : 1 ≤ v.completedJobs) :
    (updateVendorRating v r).rating =
      some ((v.rating.getD 0 * ((v.completedJobs : ℚ) - 1) + r) /
        (v.completedJobs : ℚ)) := by
  have hne : v.completedJobs ≠ 0 := by omega
  unfold updateVendorRating ratingSampleSize
  rw [if_pos hne]

/-- C7 witness: a vendor with `completedJobs = 2` and stored rating 4
receiving a vendor rating of 1 ends at `(4 × 1 + 1) / 2 = 5/2`. -/
theorem updateVendorRating_formula_witness :
    (1 : ℤ) ≤ 2 ∧
    (updateVendorRating { id := "v1", completedJobs := 2, rating := some 4 }
      1).rating = some ((5 : ℚ) / 2) := by
  refine ⟨by norm_num, ?_⟩
  rw [updateVendorRating_formula
    { id := "v1", completedJobs := 2, rating := some 4 } 1 (by decide)]
  norm_num

/-- C10: the verification-path rating update never divides by zero: the
sample size `completedJobs || 1` is always nonzero, and for a vendor
with `completedJobs = 0` the stored rating becomes exactly the submitted
vendor rating. -/
theorem updateVendorRating_no_div_zero (v : Vendor) (r : ℚ) :
    ratingSampleSize v ≠ 0 ∧
    (v.completedJobs = 0 → (updateVendorRating v r).rating = some r) := by
  constructor
  · unfold ratingSampleSize
    split
    · assumption
    · exact one_ne_zero
  · intro h0
    unfold updateVendorRating ratingSampleSize
    rw [if_neg (by rw [h0]; exact fun hc => hc rfl)]
    norm_num

/-- C10 witness: a vendor with no completed jobs receiving vendor rating
5 ends with rating exactly 5, through the nonzero fallback sample
size. -/
theorem updateVendorRating_no_div_zero_witness :
    ratingSampleSize { id := "v1", completedJobs := 0, rating := some 3 } ≠ 0 ∧
    (updateVendorRating { id := "v1", completedJobs := 0, rating := some 3 }
      5).rating = some 5 := by
  refine ⟨(updateVendorRating_no_div_zero
    { id := "v1", completedJobs := 0, rating := some 3 } 5).1, ?_⟩
  exact (updateVendorRating_no_div_zero
    { id := "v1", completedJobs := 0, rating := some 3 } 5).2 rfl

/-- C8 counterexample: the generic `updateInspection` patch can set
`completedAt` without touching the status, so an inspection satisfying
the invariant (`SCHEDULED`, no `completedAt`) leaves `updateInspection`
with `completedAt` set and status still `SCHEDULED` — the claim that
every inspection-service operation preserves the invariant fails for
`update`. -/
theorem updateInspection_invariant_counterexample :
    completedAtInv
      { propertyId := "p1", inspectorId := "u1", status := .SCHEDULED,
        scheduledAt := 0 } ∧
    ¬ completedAtInv
      (updateInspection
        { propertyId := "p1", inspectorId := "u1", status := .SCHEDULED,
          scheduledAt := 0 }
        { completedAt := some 5 }) := by
  constructor
  · intro h
    exact absurd h (by decide)
  · intro h
    have := h (by decide)
    exact absurd this (by decide)

/-- C8 (amended): `create`, `complete`, `addPhoto` and the
report-generation update always preserve the invariant "`completedAt`
set ⇒ status `COMPLETED`"; `start` preserves it only on inspections
whose `completedAt` is unset (re-starting a completed inspection breaks
it); the generic `update` preserves it only when the patch either sets
status to `COMPLETED` or touches neither `status` nor `completedAt` — in
particular a patch that sets `completedAt` alone breaks it. -/
theorem inspection_invariant_preservation :
    (∀ propertyId inspectorId scheduledAt notes,
      completedAtInv (createInspection propertyId inspectorId scheduledAt notes)) ∧
    (∀ i now location, i.completedAt = none →
      completedAtInv (startInspection i now location)) ∧
    (∀ i now overallCondition notes location,
      completedAtInv (completeInspection i now overallCondition notes location)) ∧
    (∀ i url now gps room, completedAtInv i →
      completedAtInv (addPhoto i url now gps room)) ∧
    (∀ i url now, completedAtInv i →
      completedAtInv (setReportUrl i url now)) ∧
    (∀ i params, completedAtInv i →
      (params.status = some .COMPLETED ∨
        (params.status = none ∧ params.completedAt = none)) →
      completedAtInv (updateInspection i params)) := by
  refine ⟨?_, ?_, ?_, ?_, ?_, ?_⟩
  · intro _ _ _ _ h
    exact absurd h (by simp [createInspection])
  · intro i now location hnone h
    exact absurd h (by simp [startInspection, updateInspection, patchField, hnone])
  · intro i now oc notes location _
    simp [completeInspection, updateInspection]
  · intro i url now gps room hinv h
    exact hinv (by simpa [addPhoto, updateInspection, patchField] using h)
  · intro i url now hinv h
    exact hinv (by simpa [setReportUrl] using h)
  · intro i params hinv hcases h
    rcases hcases with hc | ⟨hs, hca⟩
    · simp [updateInspection, hc]
    · simp only [updateInspection, hs, hca, patchField, Option.getD] at h ⊢
      exact hinv h

/-- C8 witness: the amended preservation facts hold at concrete
inspections — starting an open inspection, adding a photo to a completed
one, and a patch that only changes notes. -/
theorem inspection_invariant_preservation_witness :
    completedAtInv
      (startInspection
        { propertyId := "p1", inspectorId := "u1", status := .SCHEDULED,
          scheduledAt := 0 } 3 none) ∧
    completedAtInv
      (addPhoto
        { propertyId := "p1", inspectorId := "u1", status := .COMPLETED,
          scheduledAt := 0, completedAt := some 2 } "url1" 3 none "kitchen") ∧
    completedAtInv
      (updateInspection
        { propertyId := "p1", inspectorId := "u1", status := .COMPLETED,
          scheduledAt := 0, completedAt := some 2 }
        { notes := some "touch-up" }) := by
  refine ⟨?_, ?_, ?_⟩
  · exact inspection_invariant_preservation.2.1
      { propertyId := "p1", inspectorId := "u1", status := .SCHEDULED,
        scheduledAt := 0 } 3 none rfl
  · exact inspection_invariant_preservation.2.2.2.1
      { propertyId := "p1", inspectorId := "u1", status := .COMPLETED,
        scheduledAt := 0, completedAt := some 2 } "url1" 3 none "kitchen"
      (fun _ => rfl)
  · exact inspection_invariant_preservation.2.2.2.2.2
      { propertyId := "p1", inspectorId := "u1", status := .COMPLETED,
        scheduledAt := 0, completedAt := some 2 }
      { notes := some "touch-up" } (fun _ => rfl) (Or.inr ⟨rfl, rfl⟩)

/-- C9 (code bug): rendering an inspection with 22 damages crosses the
`yPosition < 100` threshold after the 21st bullet, so a second page is
added to the document (`numPages = 2`) — but every single draw call,
including the 22nd bullet issued after the page break, still targets the
first page (`pageIndex = 0`): the source adds `newPage` yet keeps
drawing through the original `page` binding, contradicting the claim
that subsequent content is drawn on the new page.  The 22nd bullet lands
back at the top of page one (`y = 742`), overwriting the title area. -/
theorem generateReport_page_break_bug :
    (generateReportOps
      { damages := List.replicate 22
          { damageType := "STAIN", severity := "MINOR", room := "kitchen" } }).numPages
      = 2 ∧
    ((generateReportOps
      { damages := List.replicate 22
          { damageType := "STAIN", severity := "MINOR", room := "kitchen" } }).ops.all
        fun op => op.pageIndex == 0) = true ∧
    ((generateReportOps
      { damages := List.replicate 22
          { damageType := "STAIN", severity := "MINOR", room := "kitchen" } }).ops.getLast?.map
        DrawOp.y) = some 742 := by
  set_option maxRecDepth 4096 in
  refine ⟨?_, ?_, ?_⟩ <;> decide

end DamageTracking
